import Mathlib

/-!
Shallow embedding of `src/api/src/opentrons/protocol_api/contexts.py`.

Conventions of the embedding:
- Python methods become pure functions threading the relevant state
  explicitly; a method body consisting only of `pass` is embedded as the
  no-op it is (state returned unchanged, normal return value `None`
  rendered as `Unit`/`none`, no exception raised).
- Calls that reach the hardware driver are recorded in a `List HwCall`
  trace component so frame properties about which operations touch the
  driver are provable.
- Python `float` volumes/rates are rendered as `Rat`; the embedded code
  performs no arithmetic on them, so no rounding questions arise.
- Collaborators imported by contexts.py but absent from the repository
  sources (`opentrons.types.Mount`, `opentrons.protocol_api.geometry.Deck`,
  the `hardware_control` API, the labware loader) are modelled from the
  spec; each such definition carries a doc comment starting
  `Modelled from the spec:`.
-/

set_option linter.unusedVariables false

namespace Opentrons

/-- Modelled from the spec: `opentrons.types.Mount` is absent from the
sources; the spec describes it as a fixed enumeration of physical
attachment points (left, right). -/
inductive Mount where
  | left
  | right
deriving DecidableEq, Repr

/-- Enumeration of all mounts, mirroring iteration over `types.Mount`
(used by `ProtocolContext.__init__` and by the driver). -/
def Mount.all : List Mount := [Mount.left, Mount.right]

/-- Labware object reference; contexts.py treats labware as opaque, so the
model identifies a labware object by an id. -/
structure Labware where
  id : Nat
deriving DecidableEq, Repr

/-- Well object reference; opaque in contexts.py. -/
structure Well where
  id : Nat
deriving DecidableEq, Repr

/-- Per-mount attachment metadata reported by the driver. contexts.py reads
only `instr.get('name', None)` from it, so the model keeps the name field
(absent key rendered as `none`). -/
structure InstrumentInfo where
  name : Option String
deriving DecidableEq, Repr

/-- Error taxonomy of spec section 7 (the conditions the claims mention). -/
inductive ApiError where
  | LocationOccupied
  | InstrumentMismatch
  | NoTipAttached
  | ConfigurationInvalid
deriving DecidableEq, Repr

/-- Modelled from the spec: `geometry.Deck` is absent from the sources; the
spec describes it as location-occupancy storage indexed by deck location
(an int), with the snapshot iterated in location order (the
`loaded_labwares` docstring in contexts.py: "sorted in order of the
locations"). It is rendered as an association list kept sorted by
location. -/
abbrev Deck := List (Nat × Labware)

/-- Whether a deck location is already populated. -/
def Deck.occupied (d : Deck) (loc : Nat) : Bool :=
  d.any (fun p => p.1 == loc)

/-- Insertion keeping the association list sorted by location. -/
def Deck.place : Deck → Nat → Labware → Deck
  | [], loc, lw => [(loc, lw)]
  | (l, w) :: rest, loc, lw =>
    if loc < l then (loc, lw) :: (l, w) :: rest
    else (l, w) :: Deck.place rest loc lw

/-- Modelled from the spec: `Deck.__setitem__` (the target of
`self._deck_layout[location] = labware_obj` in `load_labware`). Spec
sections 3 and 4.1 state that storing into an already populated location
fails with a `LocationOccupied` condition; a free location commits the
labware. -/
def Deck.setItem (d : Deck) (loc : Nat) (lw : Labware) : Except ApiError Deck :=
  if d.occupied loc then Except.error ApiError.LocationOccupied
  else Except.ok (Deck.place d loc lw)

/-- Driver-facing calls contexts.py can issue; operations return a trace of
these so frame claims about the hardware boundary are provable. -/
inductive HwCall where
  | cacheInstrumentsCall
  | moveToCall
  | homeCall
deriving DecidableEq, Repr

/-- Modelled from the spec: the `hardware_control` API (`hc.API`) is absent
from the sources; spec section 6 gives its contract: `attached_instruments`
(a read-only mapping from mount to attachment metadata) and
`cache_instruments`. -/
structure HardwareAPI where
  attached : Mount → InstrumentInfo

/-- Modelled from the spec: `cache_instruments(requested)` validates an
attachment overlay and fails if a physically attached instrument
contradicts the request (spec section 6); the contradiction surfaces as
`InstrumentMismatch` (spec section 4.1). A mount with no requested name or
no attached name cannot contradict. -/
def HardwareAPI.cache_instruments (hw : HardwareAPI)
    (requested : Mount → Option String) : Except ApiError Unit :=
  if Mount.all.all (fun m =>
      match (hw.attached m).name, requested m with
      | some a, some r => decide (a = r)
      | _, _ => true)
  then Except.ok () else Except.error ApiError.InstrumentMismatch

/-- Modelled from the spec: `hc.API.build_hardware_simulator` — a simulated
variant usable without physical hardware. -/
def HardwareAPI.build_hardware_simulator : HardwareAPI :=
  { attached := fun _ => { name := none } }

/-- State stored by `InstrumentContext.__init__`: exactly `self._ctx` (the
owning ProtocolContext, modelled as an opaque Python object id),
`self._info` and `self._mount`. The constructor's `tip_racks` and
`config_kwargs` parameters are discarded by the source. -/
structure InstrumentContext where
  ctx : Nat
  info : InstrumentInfo
  mount : Mount
deriving DecidableEq, Repr

/-- Embeds `InstrumentContext.__init__`; the parameter list mirrors the
source signature `(self, ctx, mount, tip_racks, info, **config_kwargs)`. -/
def InstrumentContext.init (ctx : Nat) (mount : Mount)
    (tip_racks : List Labware) (info : InstrumentInfo)
    (config_kwargs : List (String × String)) : InstrumentContext :=
  { ctx := ctx, info := info, mount := mount }

/-- State of a `ProtocolContext`: the bound hardware API, `_deck_layout`,
and `_instruments`. The Python object identity of the context itself is
modelled by the opaque id `ref` (what is passed as `self` to
`InstrumentContext`). -/
structure ProtocolContext where
  ref : Nat
  hardware : HardwareAPI
  deck_layout : Deck
  instruments : Mount → Option InstrumentContext

/-- Embeds `ProtocolContext.__init__`: takes the given hardware or builds a
simulator, creates an empty `geometry.Deck()`, and initialises
`self._instruments` as a dict comprehension mapping every mount of
`types.Mount` to None. -/
def ProtocolContext.init (hardware : Option HardwareAPI) (ref : Nat) :
    ProtocolContext :=
  { ref := ref
    hardware := hardware.getD HardwareAPI.build_hardware_simulator
    deck_layout := []
    instruments := fun _ => none }

/-- Embeds `ProtocolContext.connect`: swap the hardware and refresh its
instrument cache (a driver call). -/
def ProtocolContext.connect (s : ProtocolContext) (hardware : HardwareAPI) :
    ProtocolContext × List HwCall :=
  ({ s with hardware := hardware }, [HwCall.cacheInstrumentsCall])

/-- Embeds `ProtocolContext.disconnect`: connect to a fresh simulator. -/
def ProtocolContext.disconnect (s : ProtocolContext) :
    ProtocolContext × List HwCall :=
  s.connect HardwareAPI.build_hardware_simulator

/-- Embeds `ProtocolContext.load_labware`: performs
`self._deck_layout[location] = labware_obj` and returns `labware_obj`.
The `label` and `share` parameters are accepted and ignored by the source.
No driver call is made. -/
def ProtocolContext.load_labware (s : ProtocolContext) (labware_obj : Labware)
    (location : Nat) (label : Option String) (share : Bool) :
    Except ApiError Labware × ProtocolContext × List HwCall :=
  match Deck.setItem s.deck_layout location labware_obj with
  | Except.ok d => (Except.ok labware_obj, { s with deck_layout := d }, [])
  | Except.error e => (Except.error e, s, [])

/-- Embeds `ProtocolContext.load_labware_by_name`. Modelled from the spec:
the labware loader `load` is an external collaborator, passed here as a
resolver function from name and position to a labware object. -/
def ProtocolContext.load_labware_by_name (s : ProtocolContext)
    (load : String → Nat → Labware) (labware_name : String) (location : Nat) :
    Except ApiError Labware × ProtocolContext × List HwCall :=
  s.load_labware (load labware_name location) location none false

/-- Embeds the `loaded_labwares` property: `dict(self._deck_layout)`, a
snapshot of the deck contents in location order. -/
def ProtocolContext.loaded_labwares (s : ProtocolContext) :
    List (Nat × Labware) :=
  s.deck_layout

/-- Embeds `ProtocolContext.load_instrument`: read the driver's attachment
map as names, overlay `instrument_name` at `mount`, pass the overlay to
`cache_instruments` (a driver call), and if that does not raise construct
`InstrumentContext(self, mount, [], self._hardware.attached_instruments[mount])`.
The `_instruments` mapping is not written. -/
def ProtocolContext.load_instrument (s : ProtocolContext)
    (instrument_name : String) (mount : Mount) :
    Except ApiError InstrumentContext × ProtocolContext × List HwCall :=
  let attached : Mount → Option String :=
    fun att_mount => (s.hardware.attached att_mount).name
  let attached2 : Mount → Option String :=
    fun m => if m = mount then some instrument_name else attached m
  match s.hardware.cache_instruments attached2 with
  | Except.ok _ =>
      (Except.ok (InstrumentContext.init s.ref mount []
          (s.hardware.attached mount) []),
        s, [HwCall.cacheInstrumentsCall])
  | Except.error e => (Except.error e, s, [HwCall.cacheInstrumentsCall])

/-- Embeds `ProtocolContext.pause`: the body is `pass`, so the call returns
at once with the state unchanged and no driver call; no gate state exists
anywhere in `ProtocolContext`. -/
def ProtocolContext.pause (s : ProtocolContext) : ProtocolContext × List HwCall :=
  (s, [])

/-- Embeds `ProtocolContext.resume`: the body is `pass`. -/
def ProtocolContext.resume (s : ProtocolContext) : ProtocolContext × List HwCall :=
  (s, [])

/-- Embeds `ProtocolContext.comment`: the body is `pass` — no state change
and no driver call. -/
def ProtocolContext.comment (s : ProtocolContext) (msg : String) :
    ProtocolContext × List HwCall :=
  (s, [])

/-- Embeds `ProtocolContext.move_to`: resolves the location (external
geometry collaborator, no context state involved) and issues a driver
motion call. -/
def ProtocolContext.move_to (s : ProtocolContext) (mount : Mount)
    (location : Nat) : ProtocolContext × List HwCall :=
  (s, [HwCall.moveToCall])

/-- Embeds `ProtocolContext.home`: a driver call, no context state change. -/
def ProtocolContext.home (s : ProtocolContext) : ProtocolContext × List HwCall :=
  (s, [HwCall.homeCall])

/-- Nested enumeration `InstrumentContext.MODE` from the source. -/
inductive InstrumentContext.MODE where
  | ASPIRATE
  | DISPENSE
deriving DecidableEq, Repr

/-- Nested enumeration `InstrumentContext.TYPE` from the source. -/
inductive InstrumentContext.TYPE where
  | SINGLE
  | MULTI
deriving DecidableEq, Repr

/-- Embeds `InstrumentContext.aspirate`: the body is `pass`, so the call
returns normally (Python `None`) for every argument and every context —
including a context that never picked up a tip; `InstrumentContext` stores
no tip state at all. -/
def InstrumentContext.aspirate (ic : InstrumentContext) (volume : Option Rat)
    (location : Option Well) (rate : Rat) : Except ApiError Unit :=
  Except.ok ()

/-- Embeds `InstrumentContext.dispense`: the body is `pass`. -/
def InstrumentContext.dispense (ic : InstrumentContext) (volume : Option Rat)
    (location : Option Well) (rate : Rat) : Except ApiError Unit :=
  Except.ok ()

/-- Embeds `InstrumentContext.mix`: the body is `pass`. -/
def InstrumentContext.mix (ic : InstrumentContext) (repetitions : Nat)
    (volume : Option Rat) (location : Option Well) (rate : Rat) :
    Except ApiError Unit :=
  Except.ok ()

/-- Embeds `InstrumentContext.blow_out`: the body is `pass`. -/
def InstrumentContext.blow_out (ic : InstrumentContext)
    (location : Option Well) : Except ApiError Unit :=
  Except.ok ()

/-- Embeds `InstrumentContext.touch_tip`: the body is `pass`. -/
def InstrumentContext.touch_tip (ic : InstrumentContext)
    (location : Option Well) (radius : Rat) (v_offset : Rat) (speed : Rat) :
    Except ApiError Unit :=
  Except.ok ()

/-- Embeds `InstrumentContext.air_gap`: the body is `pass`. -/
def InstrumentContext.air_gap (ic : InstrumentContext) (volume : Option Rat)
    (height : Option Rat) : Except ApiError Unit :=
  Except.ok ()

/-- Embeds `InstrumentContext.return_tip`: the body is `pass`. -/
def InstrumentContext.return_tip (ic : InstrumentContext) (home_after : Bool) :
    Except ApiError Unit :=
  Except.ok ()

/-- Embeds `InstrumentContext.pick_up_tip`: the body is `pass` — no tip
state is recorded anywhere. -/
def InstrumentContext.pick_up_tip (ic : InstrumentContext)
    (location : Option Well) (presses : Nat) (increment : Nat) :
    Except ApiError Unit :=
  Except.ok ()

/-- Embeds `InstrumentContext.drop_tip`: the body is `pass`. -/
def InstrumentContext.drop_tip (ic : InstrumentContext)
    (location : Option Well) (home_after : Bool) : Except ApiError Unit :=
  Except.ok ()

/-- Primitive liquid-handling commands a composite operation could issue;
composite operations return the list of commands they issue so the
decomposition claims are statable. -/
inductive PipCmd where
  | aspirateCmd (volume : Rat)
  | dispenseCmd (volume : Rat)
  | pickUpTipCmd
  | dropTipCmd
deriving DecidableEq, Repr

/-- Embeds `InstrumentContext.transfer`: the body is `pass` — it issues no
primitive commands and raises nothing, whatever the volume. -/
def InstrumentContext.transfer (ic : InstrumentContext) (volume : Rat)
    (source : Well) (dest : Well) (kwargs : List (String × String)) :
    Except ApiError Unit × List PipCmd :=
  (Except.ok (), [])

/-- Embeds `InstrumentContext.distribute`: the body is `pass`. -/
def InstrumentContext.distribute (ic : InstrumentContext) (volume : Rat)
    (source : Well) (dest : Well) (kwargs : List (String × String)) :
    Except ApiError Unit × List PipCmd :=
  (Except.ok (), [])

/-- Embeds `InstrumentContext.consolidate`: the body is `pass`. -/
def InstrumentContext.consolidate (ic : InstrumentContext) (volume : Rat)
    (source : Well) (dest : Well) (kwargs : List (String × String)) :
    Except ApiError Unit × List PipCmd :=
  (Except.ok (), [])

/-- Embeds `InstrumentContext.home`: delegates to the protocol context's
`home` (the instrument holds a reference to it; the embedding passes that
context explicitly) and returns `self`. -/
def InstrumentContext.home (ic : InstrumentContext) (s : ProtocolContext) :
    InstrumentContext × ProtocolContext × List HwCall :=
  (ic, (s.home).1, (s.home).2)

/-- Embeds `InstrumentContext.move_to`: delegates to the protocol context's
`move_to` for this instrument's mount and returns `self`. -/
def InstrumentContext.move_to (ic : InstrumentContext) (s : ProtocolContext)
    (location : Nat) : InstrumentContext × ProtocolContext × List HwCall :=
  (ic, (s.move_to ic.mount location).1, (s.move_to ic.mount location).2)

/-- Embeds the `speeds` property getter: the body is `pass`, so it returns
Python `None`. -/
def InstrumentContext.speeds (ic : InstrumentContext) :
    Option (List (InstrumentContext.MODE × Rat)) :=
  none

/-- Embeds the `speeds` property setter: the body is `pass` — no
validation, no stored state, no driver call. -/
def InstrumentContext.set_speeds (ic : InstrumentContext)
    (new_speeds : List (InstrumentContext.MODE × Rat)) :
    Except ApiError InstrumentContext × List HwCall :=
  (Except.ok ic, [])

/-- Embeds the `flow_rate` property getter: the body is `pass`. -/
def InstrumentContext.flow_rate (ic : InstrumentContext) :
    Option (List (InstrumentContext.MODE × Rat)) :=
  none

/-- Embeds the `flow_rate` property setter: the body is `pass`. -/
def InstrumentContext.set_flow_rate (ic : InstrumentContext)
    (new_flow_rate : List (InstrumentContext.MODE × Rat)) :
    Except ApiError InstrumentContext × List HwCall :=
  (Except.ok ic, [])

/-- Embeds the `pick_up_current` property getter: the body is `pass`, so it
returns Python `None` — never a previously set value. -/
def InstrumentContext.pick_up_current (ic : InstrumentContext) : Option Rat :=
  none

/-- Embeds the `pick_up_current` property setter: the body is `pass` — it
accepts any amperage without validation, stores nothing, raises nothing and
makes no driver call. -/
def InstrumentContext.set_pick_up_current (ic : InstrumentContext)
    (amps : Rat) : Except ApiError InstrumentContext × List HwCall :=
  (Except.ok ic, [])

/-- Embeds the `tip_racks` property getter: the body is `pass`. -/
def InstrumentContext.tip_racks (ic : InstrumentContext) :
    Option (List Labware) :=
  none

/-- Embeds the `tip_racks` property setter: the body is `pass`. -/
def InstrumentContext.set_tip_racks (ic : InstrumentContext)
    (racks : List Labware) : Except ApiError InstrumentContext × List HwCall :=
  (Except.ok ic, [])

/-- Embeds the `trash_container` property getter: the body is `pass`. -/
def InstrumentContext.trash_container (ic : InstrumentContext) :
    Option Labware :=
  none

/-- Embeds the `trash_container` property setter: the body is `pass`. -/
def InstrumentContext.set_trash_container (ic : InstrumentContext)
    (trash : Labware) : Except ApiError InstrumentContext × List HwCall :=
  (Except.ok ic, [])

/-- Embeds the `name` property: `self._info['name']` (rendered as the
optional name field). -/
def InstrumentContext.name (ic : InstrumentContext) : Option String :=
  ic.info.name

/-- The operations a script can invoke on a `ProtocolContext`, used to
quantify over arbitrary operation sequences. `loadLabwareByNameOp` carries
the external labware-loader resolver as data. -/
inductive Op where
  | connectOp (hardware : HardwareAPI)
  | disconnectOp
  | loadLabwareOp (labware_obj : Labware) (location : Nat)
      (label : Option String) (share : Bool)
  | loadLabwareByNameOp (load : String → Nat → Labware)
      (labware_name : String) (location : Nat)
  | loadInstrumentOp (instrument_name : String) (mount : Mount)
  | pauseOp
  | resumeOp
  | commentOp (msg : String)
  | moveToOp (mount : Mount) (location : Nat)
  | homeOp

/-- The protocol-context state reached after one operation (the state
component of the corresponding embedded call). -/
def ProtocolContext.step (s : ProtocolContext) : Op → ProtocolContext
  | Op.connectOp hw => (s.connect hw).1
  | Op.disconnectOp => s.disconnect.1
  | Op.loadLabwareOp lw loc label share =>
      (s.load_labware lw loc label share).2.1
  | Op.loadLabwareByNameOp load nm loc =>
      (s.load_labware_by_name load nm loc).2.1
  | Op.loadInstrumentOp nm m => (s.load_instrument nm m).2.1
  | Op.pauseOp => s.pause.1
  | Op.resumeOp => s.resume.1
  | Op.commentOp msg => (s.comment msg).1
  | Op.moveToOp m loc => (s.move_to m loc).1
  | Op.homeOp => s.home.1

/-- The state reached after a sequence of operations. -/
def ProtocolContext.run (s : ProtocolContext) (ops : List Op) :
    ProtocolContext :=
  ops.foldl ProtocolContext.step s

/-- Concrete driver fixture: a p300 single on the left mount, nothing on
the right. -/
def hw0 : HardwareAPI :=
  { attached := fun m =>
      match m with
      | Mount.left => { name := some "p300_single" }
      | Mount.right => { name := none } }

/-- Concrete freshly constructed instrument context (no tip ever picked
up). -/
def ic0 : InstrumentContext :=
  InstrumentContext.init 0 Mount.left [] { name := some "p300_single" } []

/-- Concrete labware fixtures. -/
def lw7 : Labware := { id := 7 }

def lw8 : Labware := { id := 8 }

/-- Concrete well fixtures. -/
def wA : Well := { id := 1 }

def wB : Well := { id := 2 }

/-- Concrete protocol context with an occupied deck location 2. -/
def sOcc : ProtocolContext :=
  { ref := 0
    hardware := hw0
    deck_layout := [(2, lw7)]
    instruments := fun _ => none }

/-- Concrete protocol context as built by `ProtocolContext.__init__` with
the fixture driver. -/
def s0 : ProtocolContext := ProtocolContext.init (some hw0) 0

/-- Membership after sorted insertion: an element of the extended deck is
an old element or the newly placed pair. -/
theorem Deck.mem_place (d : Deck) (loc : Nat) (lw : Labware)
    (x : Nat × Labware) (h : x ∈ Deck.place d loc lw) :
    x ∈ d ∨ x = (loc, lw) := by
  induction d with
  | nil =>
      simp only [Deck.place, List.mem_singleton] at h
      exact Or.inr h
  | cons hd rest ih =>
      obtain ⟨l, w⟩ := hd
      by_cases hlt : loc < l
      · rw [Deck.place, if_pos hlt] at h
        rcases List.mem_cons.mp h with h1 | h2
        · exact Or.inr h1
        · exact Or.inl h2
      · rw [Deck.place, if_neg hlt] at h
        rcases List.mem_cons.mp h with h1 | h2
        · exact Or.inl (List.mem_cons.mpr (Or.inl h1))
        · rcases ih h2 with h3 | h3
          · exact Or.inl (List.mem_cons.mpr (Or.inr h3))
          · exact Or.inr h3

/-- Looking up the just-placed location yields the just-placed labware,
provided the location was free before. -/
theorem Deck.lookup_place (d : Deck) (loc : Nat) (lw : Labware)
    (hfree : Deck.occupied d loc = false) :
    List.lookup loc (Deck.place d loc lw) = some lw := by
  induction d with
  | nil => simp [Deck.place, List.lookup]
  | cons hd rest ih =>
      obtain ⟨l, w⟩ := hd
      simp only [Deck.occupied, List.any_cons, Bool.or_eq_false_iff] at hfree
      have hne : (loc == l) = false := by
        have : l ≠ loc := by simpa using hfree.1
        simpa using this.symm
      by_cases hlt : loc < l
      · simp [Deck.place, hlt, List.lookup]
      · rw [Deck.place, if_neg hlt, List.lookup, hne]
        exact ih hfree.2

/-- Sorted insertion preserves the strictly-increasing-location order of
the deck snapshot, provided the location was free before. -/
theorem Deck.pairwise_place (d : Deck) (loc : Nat) (lw : Labware)
    (hsorted : List.Pairwise (fun a b => a.1 < b.1) d)
    (hfree : Deck.occupied d loc = false) :
    List.Pairwise (fun a b => a.1 < b.1) (Deck.place d loc lw) := by
  induction d with
  | nil => simp [Deck.place]
  | cons hd rest ih =>
      obtain ⟨l, w⟩ := hd
      rw [List.pairwise_cons] at hsorted
      obtain ⟨hhead, htail⟩ := hsorted
      simp only [Deck.occupied, List.any_cons, Bool.or_eq_false_iff] at hfree
      have hne : l ≠ loc := by simpa using hfree.1
      by_cases hlt : loc < l
      · rw [Deck.place, if_pos hlt]
        refine List.pairwise_cons.mpr ⟨?_, List.pairwise_cons.mpr ⟨hhead, htail⟩⟩
        intro x hx
        rcases List.mem_cons.mp hx with h1 | h2
        · subst h1; exact hlt
        · exact lt_trans hlt (hhead x h2)
      · have hgt : l < loc := Nat.lt_of_le_of_ne (Nat.le_of_not_lt hlt) hne
        rw [Deck.place, if_neg hlt]
        refine List.pairwise_cons.mpr ⟨?_, ih htail hfree.2⟩
        intro x hx
        rcases Deck.mem_place rest loc lw x hx with h1 | h1
        · exact hhead x h1
        · subst h1; exact hgt

/-- Every mount is in the enumeration of mounts. -/
theorem Mount.mem_all (m : Mount) : m ∈ Mount.all := by
  cases m <;> simp [Mount.all]

/-- One step of any operation leaves the `_instruments` mapping exactly as
it was: no embedded operation ever writes to it. -/
theorem ProtocolContext.step_instruments (s : ProtocolContext) (op : Op) :
    (s.step op).instruments = s.instruments := by
  cases op with
  | connectOp hw => rfl
  | disconnectOp => rfl
  | loadLabwareOp lw loc label share =>
      simp only [ProtocolContext.step, ProtocolContext.load_labware]
      split <;> rfl
  | loadLabwareByNameOp load nm loc =>
      simp only [ProtocolContext.step, ProtocolContext.load_labware_by_name,
        ProtocolContext.load_labware]
      split <;> rfl
  | loadInstrumentOp nm m =>
      simp only [ProtocolContext.step, ProtocolContext.load_instrument]
      split <;> rfl
  | pauseOp => rfl
  | resumeOp => rfl
  | commentOp msg => rfl
  | moveToOp m loc => rfl
  | homeOp => rfl

/-- Running any operation sequence leaves the `_instruments` mapping
unchanged. -/
theorem ProtocolContext.run_instruments (ops : List Op) :
    ∀ s : ProtocolContext, (s.run ops).instruments = s.instruments := by
  induction ops with
  | nil => intro s; rfl
  | cons op rest ih =>
      intro s
      show ((s.step op).run rest).instruments = s.instruments
      rw [ih (s.step op), ProtocolContext.step_instruments]

/-- The overlay built by `load_instrument` never contradicts the driver at
any mount when the attachment at the requested mount carries the requested
name, so `cache_instruments` succeeds on it. -/
theorem HardwareAPI.cache_overlay_ok (hw : HardwareAPI) (nm : String)
    (mount : Mount) (hmatch : (hw.attached mount).name = some nm) :
    hw.cache_instruments
      (fun m => if m = mount then some nm else (hw.attached m).name) =
      Except.ok () := by
  have hcond : Mount.all.all (fun m =>
      match (hw.attached m).name,
        (if m = mount then some nm else (hw.attached m).name) with
      | some a, some r => decide (a = r)
      | _, _ => true) = true := by
    rw [List.all_eq_true]
    intro m hm
    by_cases hmmount : m = mount
    · subst hmmount
      simp [hmatch]
    · simp only [if_neg hmmount]
      cases hx : (hw.attached m).name <;> simp [hx]
  simp [HardwareAPI.cache_instruments, hcond]

/-- The overlay built by `load_instrument` contradicts the driver at the
requested mount when a differently named instrument is attached there, so
`cache_instruments` fails with `InstrumentMismatch`. -/
theorem HardwareAPI.cache_overlay_mismatch (hw : HardwareAPI)
    (nm other : String) (mount : Mount)
    (hatt : (hw.attached mount).name = some other) (hne : other ≠ nm) :
    hw.cache_instruments
      (fun m => if m = mount then some nm else (hw.attached m).name) =
      Except.error ApiError.InstrumentMismatch := by
  have hcond : Mount.all.all (fun m =>
      match (hw.attached m).name,
        (if m = mount then some nm else (hw.attached m).name) with
      | some a, some r => decide (a = r)
      | _, _ => true) = false := by
    cases hall : Mount.all.all (fun m =>
        match (hw.attached m).name,
          (if m = mount then some nm else (hw.attached m).name) with
        | some a, some r => decide (a = r)
        | _, _ => true) with
    | false => rfl
    | true =>
        exfalso
        have hm := List.all_eq_true.mp hall mount (Mount.mem_all mount)
        simp [hatt] at hm
        exact hne hm
  simp [HardwareAPI.cache_instruments, hcond]

/-- C1: the claim states that a `transfer` whose volume exceeds the
single-aspirate capacity issues exactly the ceiling number of
aspirate-then-dispense pairs summing to the volume. The source's
`transfer` body is `pass`: evaluated at the failing input (volume 500 on
an instrument of capacity 300, where the claim demands ⌈500/300⌉ = 2
pairs summing to 500), it issues no primitive commands at all. -/
theorem C1_transfer_issues_no_subtransfers :
    InstrumentContext.transfer ic0 500 wA wB [] = (Except.ok (), []) ∧
    ((500 : Nat) + 300 - 1) / 300 = 2 :=
  ⟨rfl, rfl⟩

/-- C2: the claim states that a liquid-handling primitive called in the
tip-less state fails with `NoTipAttached`. In the source every primitive
body is `pass` and `InstrumentContext` records no tip state at all, so at
the failing input — a freshly constructed context `ic0` that never picked
up a tip — every primitive returns normally, exactly as it does after a
(likewise no-op) successful `pick_up_tip`. -/
theorem C2_primitives_never_raise_no_tip :
    InstrumentContext.aspirate ic0 (some 100) none 1 = Except.ok () ∧
    InstrumentContext.dispense ic0 (some 100) none 1 = Except.ok () ∧
    InstrumentContext.mix ic0 1 (some 50) none 1 = Except.ok () ∧
    InstrumentContext.blow_out ic0 none = Except.ok () ∧
    InstrumentContext.touch_tip ic0 none 1 (-1) 60 = Except.ok () ∧
    InstrumentContext.air_gap ic0 (some 10) none = Except.ok () ∧
    InstrumentContext.pick_up_tip ic0 none 3 1 = Except.ok () :=
  ⟨rfl, rfl, rfl, rfl, rfl, rfl, rfl⟩

/-- C3: loading labware at an already populated deck location with `share`
false fails with `LocationOccupied`, returns the context unchanged (so the
deck contents for that location are untouched), and makes no driver
call. -/
theorem C3_load_labware_occupied_fails (s : ProtocolContext) (lw : Labware)
    (loc : Nat) (label : Option String)
    (hocc : Deck.occupied s.deck_layout loc = true) :
    s.load_labware lw loc label false =
      (Except.error ApiError.LocationOccupied, s, []) := by
  simp [ProtocolContext.load_labware, Deck.setItem, hocc]

/-- C3 witness: deck location 2 of the fixture `sOcc` is populated, and
loading `lw8` there with the default `share = false` fails with
`LocationOccupied` leaving the context unchanged. -/
theorem C3_load_labware_occupied_fails_witness :
    Deck.occupied sOcc.deck_layout 2 = true ∧
    sOcc.load_labware lw8 2 none false =
      (Except.error ApiError.LocationOccupied, sOcc, []) :=
  ⟨by decide, C3_load_labware_occupied_fails sOcc lw8 2 none (by decide)⟩

/-- C4: `load_instrument` reads the driver's attachment map, overlays the
requested name at the requested mount, and passes that overlay to the
driver's `cache_instruments`. When the driver-reported attachment at the
mount carries the requested name the call returns a new
`InstrumentContext` bound to that mount with the driver-reported info (and
leaves the context state unchanged); when it carries a different name the
call fails with `InstrumentMismatch`. -/
theorem C4_load_instrument_overlay (s : ProtocolContext)
    (instrument_name : String) (mount : Mount) :
    ((s.hardware.attached mount).name = some instrument_name →
      s.load_instrument instrument_name mount =
        (Except.ok (InstrumentContext.init s.ref mount []
            (s.hardware.attached mount) []),
          s, [HwCall.cacheInstrumentsCall])) ∧
    (∀ other, (s.hardware.attached mount).name = some other →
      other ≠ instrument_name →
      s.load_instrument instrument_name mount =
        (Except.error ApiError.InstrumentMismatch, s,
          [HwCall.cacheInstrumentsCall])) := by
  constructor
  · intro hmatch
    have hc := HardwareAPI.cache_overlay_ok s.hardware instrument_name mount
      hmatch
    simp [ProtocolContext.load_instrument, hc]
  · intro other hatt hne
    have hc := HardwareAPI.cache_overlay_mismatch s.hardware instrument_name
      other mount hatt hne
    simp [ProtocolContext.load_instrument, hc]

/-- C4 witness: on the fixture driver (a p300 single attached on the left
mount), requesting the matching name succeeds with an instrument context
carrying the driver-reported info, and requesting a different name fails
with `InstrumentMismatch`. -/
theorem C4_load_instrument_overlay_witness :
    (s0.hardware.attached Mount.left).name = some "p300_single" ∧
    s0.load_instrument "p300_single" Mount.left =
      (Except.ok (InstrumentContext.init 0 Mount.left []
          { name := some "p300_single" } []),
        s0, [HwCall.cacheInstrumentsCall]) ∧
    s0.load_instrument "p10_single" Mount.left =
      (Except.error ApiError.InstrumentMismatch, s0,
        [HwCall.cacheInstrumentsCall]) :=
  ⟨rfl,
    (C4_load_instrument_overlay s0 "p300_single" Mount.left).1 rfl,
    (C4_load_instrument_overlay s0 "p10_single" Mount.left).2
      "p300_single" rfl (by decide)⟩

/-- C5: loading labware at a free location returns the very labware value
passed in, and the subsequent `loaded_labwares` snapshot is still ordered
by location and maps that location to that labware. -/
theorem C5_load_labware_registers (s : ProtocolContext) (lw : Labware)
    (loc : Nat) (label : Option String) (share : Bool)
    (hfree : Deck.occupied s.deck_layout loc = false)
    (hsorted : List.Pairwise (fun a b => a.1 < b.1) s.loaded_labwares) :
    (s.load_labware lw loc label share).1 = Except.ok lw ∧
    List.lookup loc
      ((s.load_labware lw loc label share).2.1.loaded_labwares) = some lw ∧
    List.Pairwise (fun a b => a.1 < b.1)
      ((s.load_labware lw loc label share).2.1.loaded_labwares) := by
  have hne : ¬ (Deck.occupied s.deck_layout loc = true) := by simp [hfree]
  have hset : Deck.setItem s.deck_layout loc lw =
      Except.ok (Deck.place s.deck_layout loc lw) := by
    rw [Deck.setItem, if_neg hne]
  refine ⟨?_, ?_, ?_⟩
  · simp [ProtocolContext.load_labware, hset]
  · simp only [ProtocolContext.load_labware, hset,
      ProtocolContext.loaded_labwares]
    exact Deck.lookup_place s.deck_layout loc lw hfree
  · simp only [ProtocolContext.load_labware, hset,
      ProtocolContext.loaded_labwares]
    exact Deck.pairwise_place s.deck_layout loc lw hsorted hfree

/-- C5 witness: on the freshly initialised context `s0`, location 3 is
free, loading `lw7` there returns `lw7`, and the snapshot afterwards maps
3 to `lw7` and is ordered by location. -/
theorem C5_load_labware_registers_witness :
    Deck.occupied s0.deck_layout 3 = false ∧
    (s0.load_labware lw7 3 none false).1 = Except.ok lw7 ∧
    List.lookup 3 ((s0.load_labware lw7 3 none false).2.1.loaded_labwares) =
      some lw7 ∧
    List.Pairwise (fun a b => a.1 < b.1)
      ((s0.load_labware lw7 3 none false).2.1.loaded_labwares) := by
  have h := C5_load_labware_registers s0 lw7 3 none false (by decide)
    (by decide)
  exact ⟨by decide, h.1, h.2.1, h.2.2⟩

/-- C6: the claim states that setting `pick_up_current` to 2.5 A fails
with `ConfigurationInvalid` while setting 1.0 A succeeds and is reflected
by the getter. In the source both the setter and getter bodies are `pass`:
at the failing input, 2.5 A is accepted without any error and nothing is
stored, and after setting 1.0 A (which leaves the context unchanged) the
getter returns Python `None` rather than 1.0. -/
theorem C6_pick_up_current_not_validated :
    InstrumentContext.set_pick_up_current ic0 (5 / 2) = (Except.ok ic0, []) ∧
    InstrumentContext.set_pick_up_current ic0 1 = (Except.ok ic0, []) ∧
    InstrumentContext.pick_up_current ic0 = none :=
  ⟨rfl, rfl, rfl⟩

/-- C7: the claim states that `pause` blocks the calling flow until a
resume signal arrives. The source's `pause` body is `pass` (contradicting
its own docstring, which says the call will not return until the protocol
is resumed): the call returns immediately with the context unchanged, no
driver call, and no gate state exists in `ProtocolContext` at all. The
half of the claim saying `resume` without a pending pause is a state-
preserving no-op does hold. -/
theorem C7_pause_returns_immediately (s : ProtocolContext) :
    s.pause = (s, []) ∧ s.resume = (s, []) :=
  ⟨rfl, rfl⟩

/-- C8: `comment` returns the context completely unchanged (deck layout,
instrument mapping and bound driver included) with no driver call, and
neither `load_labware` nor any configuration setter ever issues a driver
call (the configuration getters are pure functions that cannot reach the
driver by construction). -/
theorem C8_local_operations_no_driver_calls (s : ProtocolContext)
    (msg : String) :
    s.comment msg = (s, []) ∧
    (∀ lw loc label share, (s.load_labware lw loc label share).2.2 = []) ∧
    (∀ ic new_speeds,
      (InstrumentContext.set_speeds ic new_speeds).2 = []) ∧
    (∀ ic new_flow_rate,
      (InstrumentContext.set_flow_rate ic new_flow_rate).2 = []) ∧
    (∀ (ic : InstrumentContext) (amps : Rat),
      (InstrumentContext.set_pick_up_current ic amps).2 = []) ∧
    (∀ ic racks, (InstrumentContext.set_tip_racks ic racks).2 = []) ∧
    (∀ ic trash, (InstrumentContext.set_trash_container ic trash).2 = []) := by
  refine ⟨rfl, ?_, fun _ _ => rfl, fun _ _ => rfl, fun _ _ => rfl,
    fun _ _ => rfl, fun _ _ => rfl⟩
  intro lw loc label share
  simp only [ProtocolContext.load_labware]
  split <;> rfl

/-- C9: the `_instruments` mapping starts with every mount slot empty, and
no operation sequence — including successful `load_instrument` calls,
which construct and return an `InstrumentContext` without recording it —
ever writes to the mapping, so every mount slot remains empty. -/
theorem C9_instruments_mapping_never_written (hardware : Option HardwareAPI)
    (ref : Nat) (ops : List Op) (m : Mount) :
    (ProtocolContext.init hardware ref).instruments m = none ∧
    ((ProtocolContext.init hardware ref).run ops).instruments m = none := by
  constructor
  · rfl
  · rw [ProtocolContext.run_instruments ops (ProtocolContext.init hardware ref)]
    rfl

/-- C10: `InstrumentContext.__init__` stores exactly the context
reference, the instrument info and the mount; two constructions differing
only in `tip_racks` or in the extra configuration keyword arguments yield
equal contexts, so every subsequent operation on them behaves
identically. -/
theorem C10_init_ignores_tip_racks_and_kwargs (ctx : Nat) (mount : Mount)
    (info : InstrumentInfo) (tr1 tr2 : List Labware)
    (kw1 kw2 : List (String × String)) :
    InstrumentContext.init ctx mount tr1 info kw1 =
      InstrumentContext.init ctx mount tr2 info kw2 ∧
    (InstrumentContext.init ctx mount tr1 info kw1).ctx = ctx ∧
    (InstrumentContext.init ctx mount tr1 info kw1).info = info ∧
    (InstrumentContext.init ctx mount tr1 info kw1).mount = mount :=
  ⟨rfl, rfl, rfl, rfl⟩

end Opentrons
